import Mathlib

/-!
Verification of the statistics and progress-aggregation core of the
fitness-nutrition backend (`src/api/user.mjs`, `src/api/progress.mjs`).

Calendar dates are modelled as day ordinals: the number of days since
1970-01-01 (UTC).  The store's `DATE` column and the calendar day of a
`logged_at` timestamp (`date::date` in the queries) are both such
ordinals.  All timestamp truncation is taken in UTC, matching the
store's timestamp semantics and a server running with TZ=UTC, so a
`DATE` value parsed by the driver at local midnight and re-rendered by
`toISOString` yields the same calendar day.
-/

/-- Is `y` a leap year (proleptic Gregorian)? -/
def isLeapYear (y : Nat) : Bool :=
  (y % 4 == 0 && y % 100 != 0) || y % 400 == 0

/-- Number of days in month `m` (1-12) of year `y`. -/
def daysInMonth (y m : Nat) : Nat :=
  if m == 2 then (if isLeapYear y then 29 else 28)
  else if m == 4 || m == 6 || m == 9 || m == 11 then 30
  else 31

/-- Civil date `(year, month, day)` of a day ordinal (days since
1970-01-01), by the standard Gregorian era decomposition.  Valid for
all ordinals at or after the epoch. -/
def civilFromDays (z : Nat) : Nat × Nat × Nat :=
  let zs := z + 719468
  let era := zs / 146097
  let doe := zs % 146097
  let yoe := (doe - doe / 1460 + doe / 36524 - doe / 146096) / 365
  let y := yoe + era * 400
  let doy := doe - (365 * yoe + yoe / 4 - yoe / 100)
  let mp := (5 * doy + 2) / 153
  let d := doy - (153 * mp + 2) / 5 + 1
  let m := if mp < 10 then mp + 3 else mp - 9
  (if m ≤ 2 then y + 1 else y, m, d)

/-- Day ordinal (days since 1970-01-01) of a civil date; inverse of
`civilFromDays` on valid post-epoch dates. -/
def daysFromCivil (y m d : Nat) : Nat :=
  let ya := if m ≤ 2 then y - 1 else y
  let era := ya / 400
  let yoe := ya - era * 400
  let mp := if m > 2 then m - 3 else m + 9
  let doy := (153 * mp + 2) / 5 + d - 1
  let doe := yoe * 365 + yoe / 4 - yoe / 100 + doy
  era * 146097 + doe - 719468

/-- Calendar month (1-12) of a day ordinal: `EXTRACT(MONTH FROM date)`. -/
def monthOf (z : Nat) : Nat :=
  (civilFromDays z).2.1

/-- Calendar year of a day ordinal. -/
def yearOf (z : Nat) : Nat :=
  (civilFromDays z).1

/-- Zero-padded two-digit rendering of `n < 100`. -/
def pad2 (n : Nat) : String :=
  if n < 10 then "0" ++ toString n else toString n

/-- `d.toISOString().split("T")[0]`: the `YYYY-MM-DD` rendering of a day
ordinal (UTC). -/
def isoDate (z : Nat) : String :=
  let c := civilFromDays z
  toString c.1 ++ "-" ++ pad2 c.2.1 ++ "-" ++ pad2 c.2.2

/-- Three-letter weekday name of a day ordinal (1970-01-01 was a
Thursday). -/
def weekdayName (z : Nat) : String :=
  ["Sun", "Mon", "Tue", "Wed", "Thu", "Fri", "Sat"].getD ((z + 4) % 7) ""

/-- Three-letter month name, `m` between 1 and 12. -/
def monthName (m : Nat) : String :=
  ["Jan", "Feb", "Mar", "Apr", "May", "Jun",
   "Jul", "Aug", "Sep", "Oct", "Nov", "Dec"].getD (m - 1) ""

/-- The date-dependent part of JavaScript `Date.prototype.toString` for a
`DATE` value parsed at UTC midnight: `"Www Mmm DD YYYY"`.  The time and
timezone suffix (`" 00:00:00 GMT+0000 (Coordinated Universal Time)"`) is
the same for every such value, so dropping it cannot change any
comparison between two keys. -/
def jsDateString (z : Nat) : String :=
  let c := civilFromDays z
  weekdayName z ++ " " ++ monthName c.2.1 ++ " " ++ pad2 c.2.2 ++ " " ++ toString c.1

/-- A string read as a base-65536 numeral of its UTF-16 code units.
For two strings of equal length (every `jsDateString` has length 15 for
four-digit years), numeric order of the codes coincides with the
lexicographic code-unit comparison JavaScript's default `sort()`
performs on the `toString` values. -/
def strCode (s : String) : Nat :=
  s.data.foldl (fun n c => n * 65536 + c.toNat) 0

/-- Sort key of a day ordinal under JavaScript's default `sort()` on
`Date` objects (compares `toString()` strings). -/
def jsKeyCode (z : Nat) : Nat :=
  strCode (jsDateString z)

/-- `[...].sort()` on a list of `Date` objects: stable sort by the
string rendering.  `List.insertionSort` inserts an element before the
first element not below it, hence is stable, like JavaScript's sort. -/
def jsSortDates (l : List Nat) : List Nat :=
  List.insertionSort (fun a b => jsKeyCode a ≤ jsKeyCode b) l

/-- Stable ascending sort by a natural-number key (`ORDER BY key`). -/
def sortAscBy (key : α → Nat) (l : List α) : List α :=
  List.insertionSort (fun a b => key a ≤ key b) l

/-- Stable descending sort by a natural-number key (`ORDER BY key DESC`). -/
def sortDescBy (key : α → Nat) (l : List α) : List α :=
  List.insertionSort (fun a b => key b ≤ key a) l

/-- The distinct values of a column, as produced by `DISTINCT` /
`GROUP BY`: `List.dedup`.  SQL leaves the pre-`ORDER BY` row order of a
grouped query unspecified, and every use below either sorts the result
afterwards or is insensitive to its order, so any deduplication serves. -/
def distinctVals [DecidableEq α] (l : List α) : List α :=
  l.dedup

/-! ## Data model (store rows) -/

/-- A row of `workout_logs`: `id SERIAL PRIMARY KEY`, `user_id`,
`date DATE NOT NULL` (day ordinal), `duration INTEGER NOT NULL`. -/
structure WorkoutLog where
  id : Nat
  user_id : Nat
  date : Nat
  duration : Int
deriving DecidableEq

/-- A row of `workout_exercises`: `workout_id`, `exercise_name`,
`weight DECIMAL(5,2)` (nullable). -/
structure ExerciseRow where
  workout_id : Nat
  exercise_name : String
  weight : Option ℚ
deriving DecidableEq

/-- A row of `food_logs` as the aggregation queries see it: `user_id`,
the calendar day `date::date` of its timestamp, and the macro columns.
The macro columns are nullable in the schema but every insert path
(`POST /log` in the nutrition router) writes `Math.round(x || 0)` /
`x || 0`, so stored values are non-null numbers. -/
structure FoodLog where
  user_id : Nat
  date : Nat
  calories : Int
  protein : ℚ
  carbs : ℚ
  fats : ℚ
deriving DecidableEq

/-- The relational store state the two endpoints read.  `tablesExist`
models the `information_schema.tables` probe made by the progress
endpoint. -/
structure Store where
  workout_logs : List WorkoutLog
  workout_exercises : List ExerciseRow
  food_logs : List FoodLog
  tablesExist : Bool
deriving DecidableEq

/-- Outcome of connecting to and querying the store: either the store
state, or a retrieval failure (connection or query error). -/
inductive StoreResult where
  | ok (s : Store)
  | error (msg : String)

/-! ## `calculateUserStats` (src/api/user.mjs, lines 204-287) -/

/-- `WHERE user_id = $1` on `workout_logs`. -/
def userWorkouts (s : Store) (uid : Nat) : List WorkoutLog :=
  s.workout_logs.filter (fun l => l.user_id == uid)

/-- `WHERE user_id = $1` on `food_logs`. -/
def userFood (s : Store) (uid : Nat) : List FoodLog :=
  s.food_logs.filter (fun l => l.user_id == uid)

/-- `SELECT DISTINCT date::date FROM workout_logs WHERE user_id = $1`,
in the ascending order used by `ROW_NUMBER() OVER (ORDER BY date)`. -/
def workoutDates (s : Store) (uid : Nat) : List Nat :=
  sortAscBy id (distinctVals ((userWorkouts s uid).map (·.date)))

/-- The `consecutive_days` CTE: each distinct date minus its 1-based
row number (ordered by date), so dates in one consecutive run share a
group value. -/
def streakGrps (ds : List Nat) : List Int :=
  ds.enum.map (fun p => (p.2 : Int) - ((p.1 : Int) + 1))

/-- `SELECT grp, COUNT(*) FROM consecutive_days GROUP BY grp`. -/
def grpRows (gs : List Int) : List (Int × Nat) :=
  (distinctVals gs).map (fun g => (g, (gs.filter (fun x => x == g)).length))

/-- The full streak query of `calculateUserStats`: the inner query
keeps the single largest group (`ORDER BY COUNT(*) DESC LIMIT 1`), and
the outer query computes `SELECT COUNT(*) + 1` over those (at most one)
rows — the count of rows of the `LIMIT 1` subquery plus one, not the
kept group's `days` value. -/
def streakSQL (ds : List Nat) : Nat :=
  ((sortDescBy (fun r => r.2) (grpRows (streakGrps ds))).take 1).length + 1

/-- `SELECT date::date, SUM(calories) ... GROUP BY date::date`: the
distinct active nutrition days. -/
def foodDays (s : Store) (uid : Nat) : List Nat :=
  distinctVals ((userFood s uid).map (·.date))

/-- Per-day calorie sum for one active day. -/
def dayCalories (s : Store) (uid d : Nat) : Int :=
  (((userFood s uid).filter (fun l => l.date == d)).map (·.calories)).sum

/-- `SELECT AVG(daily_calories) FROM (per-day sums)` followed by
`parseFloat(rows[0]?.avg_calories || 0)`: the mean of the per-day sums
over the active days, and `0` when there are none (`AVG` of no rows is
`NULL`). -/
def avgCaloriesSQL (s : Store) (uid : Nat) : ℚ :=
  let days := foodDays s uid
  if days.isEmpty then 0
  else ((days.map (fun d => dayCalories s uid d)).sum : ℚ) / (days.length : ℚ)

/-- `NOW() - INTERVAL '6 months'` at day granularity: the same civil
day-of-month six calendar months earlier, clamped to the target
month's length (PostgreSQL clamps, e.g. Mar 31 minus one month is
Feb 28). -/
def sixMonthsAgo (now : Nat) : Nat :=
  let c := civilFromDays now
  let ym := if c.2.1 > 6 then (c.1, c.2.1 - 6) else (c.1 - 1, c.2.1 + 6)
  daysFromCivil ym.1 ym.2 (min c.2.2 (daysInMonth ym.1 ym.2))

/-- One row of the monthly-stats query result. -/
structure MonthlyRow where
  month : Nat
  active_days : Nat
  total_workouts : Nat
  total_duration : Int
deriving DecidableEq

/-- The monthly-stats query: workouts of the trailing six months,
grouped by `EXTRACT(MONTH FROM date)` (the month number 1-12, with no
year component), with distinct active days, row count and duration sum,
`ORDER BY month DESC`. -/
def monthlyStatsSQL (s : Store) (uid now : Nat) : List MonthlyRow :=
  let rows := (userWorkouts s uid).filter (fun l => decide (sixMonthsAgo now ≤ l.date))
  let months := distinctVals (rows.map (fun l => monthOf l.date))
  sortDescBy (fun r => r.month) (months.map (fun m =>
    let g := rows.filter (fun l => monthOf l.date == m)
    { month := m
      active_days := (distinctVals (g.map (·.date))).length
      total_workouts := g.length
      total_duration := (g.map (·.duration)).sum }))

/-- One row of the top-exercises query result. -/
structure TopExercise where
  exercise_name : String
  times_performed : Nat
  avg_weight : ℚ
deriving DecidableEq

/-- `workout_exercises JOIN workout_logs ON we.workout_id = wl.id WHERE
wl.user_id = $1`; `workout_logs.id` is a primary key, so an exercise
row joins at most one log row. -/
def userExercises (s : Store) (uid : Nat) : List ExerciseRow :=
  s.workout_exercises.filter (fun e =>
    (s.workout_logs.filter (fun w => w.id == e.workout_id)).any (fun w => w.user_id == uid))

/-- The top-exercises query: group by name, count, average
`COALESCE(weight, 0)`, `ORDER BY times_performed DESC LIMIT 5`. -/
def topExercisesSQL (s : Store) (uid : Nat) : List TopExercise :=
  let entries := userExercises s uid
  let names := distinctVals (entries.map (·.exercise_name))
  (sortDescBy (fun t => t.times_performed) (names.map (fun nm =>
    let g := entries.filter (fun e => e.exercise_name == nm)
    { exercise_name := nm
      times_performed := g.length
      avg_weight := ((g.map (fun e => e.weight.getD 0)).sum) / (g.length : ℚ) }))).take 5

/-- The object returned by `calculateUserStats`. -/
structure Stats where
  totalWorkouts : Nat
  streak : Nat
  avgCalories : ℚ
  monthlyStats : List MonthlyRow
  topExercises : List TopExercise
  lastUpdated : Nat
deriving DecidableEq

/-- `calculateUserStats(userId)` evaluated against store state `s` with
the clock reading `now` (a day ordinal): `lastUpdated` is
`new Date()`, the computation time itself. -/
def calculateUserStats (s : Store) (uid now : Nat) : Stats :=
  { totalWorkouts := (userWorkouts s uid).length
    streak := streakSQL (workoutDates s uid)
    avgCalories := avgCaloriesSQL s uid
    monthlyStats := monthlyStatsSQL s uid now
    topExercises := topExercisesSQL s uid
    lastUpdated := now }

/-- The `GET /stats` route handler: on any retrieval failure the catch
block answers HTTP 500 with an error message (modelled as
`Except.error`); otherwise it answers the computed snapshot. -/
def getStatsRoute (db : StoreResult) (uid now : Nat) : Except String Stats :=
  match db with
  | .error _ => .error "Error fetching user stats"
  | .ok s => .ok (calculateUserStats s uid now)

/-! ## `GET /api/progress` (src/api/progress.mjs) -/

/-- The `switch (range)` choosing the interval length of the SQL time
filter `AND date >= NOW() - INTERVAL '<n> days'`; any value other than
`"week"`, `"month"`, `"year"` takes the `default` branch, 30 days. -/
def timeFilter (range : String) : Nat :=
  if range == "week" then 7
  else if range == "month" then 30
  else if range == "year" then 365
  else 30

/-- A row of the per-day workout aggregation query. -/
structure WRow where
  date : Nat
  workout_count : Nat
  total_duration : Int
deriving DecidableEq

/-- A row of the per-day nutrition aggregation query. -/
structure NRow where
  date : Nat
  total_calories : Int
  total_protein : ℚ
  total_carbs : ℚ
  total_fats : ℚ
deriving DecidableEq

/-- The workout query: rows of `workout_logs` for the user with
`date >= NOW() - INTERVAL '<n> days'` (`cutoff` is the interval's start
day), grouped by day with count and duration sum, `ORDER BY date`. -/
def workoutRowsQ (s : Store) (uid cutoff : Nat) : List WRow :=
  let rows := s.workout_logs.filter (fun l => l.user_id == uid && decide (cutoff ≤ l.date))
  (sortAscBy id (distinctVals (rows.map (·.date)))).map (fun d =>
    let g := rows.filter (fun l => l.date == d)
    { date := d
      workout_count := g.length
      total_duration := (g.map (·.duration)).sum })

/-- The nutrition query: rows of `food_logs` for the user in range,
grouped by day with the four macro sums, `ORDER BY date`. -/
def nutritionRowsQ (s : Store) (uid cutoff : Nat) : List NRow :=
  let rows := s.food_logs.filter (fun l => l.user_id == uid && decide (cutoff ≤ l.date))
  (sortAscBy id (distinctVals (rows.map (·.date)))).map (fun d =>
    let g := rows.filter (fun l => l.date == d)
    { date := d
      total_calories := (g.map (·.calories)).sum
      total_protein := (g.map (·.protein)).sum
      total_carbs := (g.map (·.carbs)).sum
      total_fats := (g.map (·.fats)).sum })

/-- The `workouts` member of the response JSON. -/
structure WorkoutSeries where
  dates : List String
  durations : List Int
  counts : List Nat
deriving DecidableEq

/-- The `nutrition` member of the response JSON. -/
structure NutritionSeries where
  dates : List String
  calories : List Int
  protein : List ℚ
  carbs : List ℚ
  fats : List ℚ
deriving DecidableEq

/-- The `metrics` member of the response JSON. -/
structure Metrics where
  totalWorkouts : Nat
  avgDuration : ℚ
  totalCalories : Int
  avgCalories : ℚ
deriving DecidableEq

/-- The progress response JSON. -/
structure ProgressResponse where
  workouts : WorkoutSeries
  nutrition : NutritionSeries
  metrics : Metrics
deriving DecidableEq

/-- The empty data structure the endpoint answers when tables are
missing, when both queries return no rows, and in the catch block. -/
def emptyProgress : ProgressResponse :=
  { workouts := { dates := [], durations := [], counts := [] }
    nutrition := { dates := [], calories := [], protein := [], carbs := [], fats := [] }
    metrics := { totalWorkouts := 0, avgDuration := 0, totalCalories := 0, avgCalories := 0 } }

/-- The `metrics` computation over the two row sets (sums, and means
over the number of returned rows, `0` when there are none). -/
def metricsOf (w : List WRow) (n : List NRow) : Metrics :=
  { totalWorkouts := (w.map (·.workout_count)).sum
    avgDuration := if w.isEmpty then 0
      else ((w.map (·.total_duration)).sum : ℚ) / (w.length : ℚ)
    totalCalories := (n.map (·.total_calories)).sum
    avgCalories := if n.isEmpty then 0
      else ((n.map (·.total_calories)).sum : ℚ) / (n.length : ℚ) }

/-- `[...new Set([...workouts.rows.map(r => r.date), ...nutrition.rows
.map(r => r.date)])].sort()`.  The `date` values are `Date` objects and
a JavaScript `Set` compares objects by reference; the rows of the two
queries are all distinct objects, so the `Set` removes nothing and the
axis is the plain concatenation of the two date columns, sorted by the
default string comparison of `Date.prototype.toString`. -/
def axisDates (w : List WRow) (n : List NRow) : List Nat :=
  jsSortDates (w.map (·.date) ++ n.map (·.date))

/-- `workouts.rows.find(w => w.date.toISOString().split("T")[0] ===
date.toISOString().split("T")[0])`. -/
def findW (w : List WRow) (d : Nat) : Option WRow :=
  w.find? (fun r => isoDate r.date == isoDate d)

/-- The same lookup over the nutrition rows. -/
def findN (n : List NRow) (d : Nat) : Option NRow :=
  n.find? (fun r => isoDate r.date == isoDate d)

/-- The `response` object: every array is a map over the shared `dates`
axis, with `0` where the day has no row in the relevant source. -/
def buildResponse (w : List WRow) (n : List NRow) : ProgressResponse :=
  let dates := axisDates w n
  { workouts :=
    { dates := dates.map isoDate
      durations := dates.map (fun d => match findW w d with
        | some r => r.total_duration
        | none => 0)
      counts := dates.map (fun d => match findW w d with
        | some r => r.workout_count
        | none => 0) }
    nutrition :=
    { dates := dates.map isoDate
      calories := dates.map (fun d => match findN n d with
        | some r => r.total_calories
        | none => 0)
      protein := dates.map (fun d => match findN n d with
        | some r => r.total_protein
        | none => 0)
      carbs := dates.map (fun d => match findN n d with
        | some r => r.total_carbs
        | none => 0)
      fats := dates.map (fun d => match findN n d with
        | some r => r.total_fats
        | none => 0) }
    metrics := metricsOf w n }

/-- The body of the `try` block: table probe, the two queries, the
empty-data early return, and the response assembly. -/
def progressBody (s : Store) (uid now : Nat) (range : String) : ProgressResponse :=
  let cutoff := now - timeFilter range
  if !s.tablesExist then emptyProgress
  else
    let w := workoutRowsQ s uid cutoff
    let n := nutritionRowsQ s uid cutoff
    if w.isEmpty && n.isEmpty then emptyProgress
    else buildResponse w n

/-- The `GET /api/progress` route handler: any retrieval failure is
swallowed by the catch block, which answers `emptyProgress` instead of
an error. -/
def getProgressRoute (db : StoreResult) (uid now : Nat) (range : String) : ProgressResponse :=
  match db with
  | .error _ => emptyProgress
  | .ok s => progressBody s uid now range

/-! ## Spec-side comparison definitions and example stores -/

/-- The spec's description of the average: the arithmetic mean of the
per-day calorie sums over exactly the days with at least one nutrition
event, stated set-theoretically for comparison with the query pipeline
`avgCaloriesSQL`. -/
def specAvgDailyCalories (s : Store) (uid : Nat) : ℚ :=
  let days := ((userFood s uid).map (·.date)).toFinset
  if days.card = 0 then 0
  else (((days.sum fun d => dayCalories s uid d) : Int) : ℚ) / (days.card : ℚ)

/-- The spec's ordering of the monthly rollups: the distinct
(year, month) pairs of the in-window workouts, most recent first,
stated for comparison with the month-number ordering the query uses. -/
def specRecentMonthsDesc (s : Store) (uid now : Nat) : List (Nat × Nat) :=
  let rows := (userWorkouts s uid).filter (fun l => decide (sixMonthsAgo now ≤ l.date))
  sortDescBy (fun p => p.1 * 12 + p.2)
    (distinctVals (rows.map (fun l => (yearOf l.date, monthOf l.date))))

/-- Shape consistency of a progress response: all eight series arrays
have the length of the workout date axis, and the two date arrays are
equal. -/
def shapeConsistent (r : ProgressResponse) : Prop :=
  r.workouts.durations.length = r.workouts.dates.length ∧
  r.workouts.counts.length = r.workouts.dates.length ∧
  r.nutrition.dates.length = r.workouts.dates.length ∧
  r.nutrition.calories.length = r.workouts.dates.length ∧
  r.nutrition.protein.length = r.workouts.dates.length ∧
  r.nutrition.carbs.length = r.workouts.dates.length ∧
  r.nutrition.fats.length = r.workouts.dates.length ∧
  r.workouts.dates = r.nutrition.dates

/-- Day ordinals used in the examples: 19723 = 2024-01-01 (a Monday),
19724 = 2024-01-02, 19725 = 2024-01-03, 19727 = 2024-01-05 (a Friday),
19732 = 2024-01-10, 19676 = 2023-11-15, 19754 = 2024-02-01.
A store whose user 1 worked out on the spec's streak example days
2024-01-01, 2024-01-02, 2024-01-03 and 2024-01-10. -/
def streakStore : Store :=
  { workout_logs := [⟨1, 1, 19723, 30⟩, ⟨2, 1, 19724, 30⟩, ⟨3, 1, 19725, 30⟩, ⟨4, 1, 19732, 30⟩]
    workout_exercises := []
    food_logs := []
    tablesExist := true }

/-- A store with a workout and a food log on the same calendar day,
2024-01-02. -/
def overlapStore : Store :=
  { workout_logs := [⟨1, 1, 19724, 45⟩]
    workout_exercises := []
    food_logs := [⟨1, 19724, 500, 10, 20, 5⟩]
    tablesExist := true }

/-- A store with workouts on 2024-01-01 (a Monday) and 2024-01-05 (a
Friday), whose `toString` renderings sort in reverse calendar order. -/
def sortPairStore : Store :=
  { workout_logs := [⟨1, 1, 19723, 30⟩, ⟨2, 1, 19727, 30⟩]
    workout_exercises := []
    food_logs := []
    tablesExist := true }

/-- The spec's series-alignment example: workouts on 2024-01-01 and
2024-01-02, nutrition on 2024-01-02 and 2024-01-03. -/
def alignStore : Store :=
  { workout_logs := [⟨1, 1, 19723, 30⟩, ⟨2, 1, 19724, 40⟩]
    workout_exercises := []
    food_logs := [⟨1, 19724, 600, 10, 20, 5⟩, ⟨1, 19725, 700, 11, 21, 6⟩]
    tablesExist := true }

/-- The grouped workout rows the progress endpoint's workout query
produces for `alignStore` in any range covering both days. -/
def wEx : List WRow :=
  [⟨19723, 1, 30⟩, ⟨19724, 1, 40⟩]

/-- The grouped nutrition rows for `alignStore`. -/
def nEx : List NRow :=
  [⟨19724, 600, 10, 20, 5⟩, ⟨19725, 700, 11, 21, 6⟩]

/-- A store whose trailing-6-month window (seen from 2024-02-01)
contains workouts in November 2023 and January 2024, crossing a year
boundary. -/
def yearBoundStore : Store :=
  { workout_logs := [⟨1, 1, 19676, 30⟩, ⟨2, 1, 19732, 40⟩]
    workout_exercises := []
    food_logs := []
    tablesExist := true }

/-- A store where user 1 logged 2000 kcal on a single day
(2024-01-01) and nothing on any other day. -/
def calStore : Store :=
  { workout_logs := []
    workout_exercises := []
    food_logs := [⟨1, 19723, 2000, 0, 0, 0⟩]
    tablesExist := true }

/-! ## Helper lemmas -/

theorem sorted_sortDescBy (key : α → Nat) (l : List α) :
    List.Pairwise (fun a b => key b ≤ key a) (sortDescBy key l) := by
  haveI : IsTotal α (fun a b => key b ≤ key a) :=
    ⟨fun a b => (Nat.le_total (key b) (key a)).elim Or.inl Or.inr⟩
  haveI : IsTrans α (fun a b => key b ≤ key a) :=
    ⟨fun _ _ _ hab hbc => Nat.le_trans hbc hab⟩
  exact List.sorted_insertionSort _ l

theorem perm_sortDescBy (key : α → Nat) (l : List α) :
    (sortDescBy key l).Perm l :=
  List.perm_insertionSort _ l

theorem toFinset_dedup_eq [DecidableEq α] (l : List α) :
    l.dedup.toFinset = l.toFinset := by
  ext a
  simp [List.mem_dedup]

/-! ## Claim theorems -/

/-- C1: the spec claims the snapshot's streak is the length of the
largest block of calendar-consecutive workout days, with streak(∅) = 0,
streak(D) ≤ |D|, and streak of {2024-01-01, 2024-01-02, 2024-01-03,
2024-01-10} equal to 3.  The streak query instead computes
`COUNT(*) + 1` over the rows of its `LIMIT 1` subquery, so it returns 2
whenever any workout day exists (here: 2, not 3; and 2 > 1 = |D| on a
one-day history) and 1 on an empty history (not 0). -/
theorem streak_query_is_constant :
    workoutDates streakStore 1 = [19723, 19724, 19725, 19732] ∧
    (calculateUserStats streakStore 1 19750).streak = 2 ∧
    streakSQL [19723] = 2 ∧
    streakSQL [] = 1 :=
  ⟨rfl, rfl, rfl, rfl⟩

/-- C2: the spec claims the progress date axis is the deduplicated
union of the two sources' days, sorted ascending.  The axis is built
with `new Set` over `Date` objects, which a JavaScript `Set` compares
by reference, and sorted by default string comparison: a day present in
both sources appears twice (first conjunct), and the axis of workouts
on Monday 2024-01-01 and Friday 2024-01-05 comes out in reverse
calendar order because `"Fri..." < "Mon..."` as strings (second
conjunct). -/
theorem progress_axis_not_dedup_not_ascending :
    (getProgressRoute (.ok overlapStore) 1 19724 "month").workouts.dates =
      ["2024-01-02", "2024-01-02"] ∧
    (getProgressRoute (.ok sortPairStore) 1 19727 "month").workouts.dates =
      ["2024-01-05", "2024-01-01"] :=
  ⟨rfl, rfl⟩

/-- C3: on any retrieval error the progress endpoint answers the
well-formed all-zero structure — empty series arrays and all four
metrics zero — instead of an error. -/
theorem progress_error_all_zero (msg : String) (uid now : Nat) (range : String) :
    getProgressRoute (.error msg) uid now range = emptyProgress ∧
    emptyProgress.workouts.dates = [] ∧
    emptyProgress.workouts.durations = [] ∧
    emptyProgress.workouts.counts = [] ∧
    emptyProgress.nutrition.dates = [] ∧
    emptyProgress.nutrition.calories = [] ∧
    emptyProgress.nutrition.protein = [] ∧
    emptyProgress.nutrition.carbs = [] ∧
    emptyProgress.nutrition.fats = [] ∧
    emptyProgress.metrics = ⟨0, 0, 0, 0⟩ :=
  ⟨rfl, rfl, rfl, rfl, rfl, rfl, rfl, rfl, rfl, rfl⟩

/-- C4: on a retrieval failure the stats endpoint surfaces an error
result to its caller (the catch block answers HTTP 500, modelled as
`Except.error`), while a reachable store — including one with no data —
yields a valid snapshot result; an error result is never a valid
result. -/
theorem stats_error_surfaced (msg : String) (uid now : Nat) (s : Store) :
    getStatsRoute (.error msg) uid now = .error "Error fetching user stats" ∧
    getStatsRoute (.ok s) uid now = .ok (calculateUserStats s uid now) ∧
    ∀ st : Stats, (Except.error "Error fetching user stats" : Except String Stats) ≠ .ok st :=
  ⟨rfl, rfl, fun _ h => Except.noConfusion h⟩

/-- C7 counterexample: two computations of the snapshot over the same
unchanged store at different times are not identical, because
`lastUpdated` is `new Date()`, the computation time. -/
theorem stats_differ_across_time :
    calculateUserStats streakStore 1 19750 ≠ calculateUserStats streakStore 1 19751 :=
  fun h => absurd (congrArg Stats.lastUpdated h) (by decide)

/-- C7 (amended): the snapshot is a deterministic function of the
stored events and the request time; the fields computed from unbounded
queries — totalWorkouts, streak, avgCalories, topExercises — depend on
the stored events alone, identical across any two computation times. -/
theorem stats_fields_time_invariant (s : Store) (uid t1 t2 : Nat) :
    (calculateUserStats s uid t1).totalWorkouts = (calculateUserStats s uid t2).totalWorkouts ∧
    (calculateUserStats s uid t1).streak = (calculateUserStats s uid t2).streak ∧
    (calculateUserStats s uid t1).avgCalories = (calculateUserStats s uid t2).avgCalories ∧
    (calculateUserStats s uid t1).topExercises = (calculateUserStats s uid t2).topExercises :=
  ⟨rfl, rfl, rfl, rfl⟩

/-- C8 counterexample: with workouts on 2023-11-15 and 2024-01-10 seen
from 2024-02-01 (a trailing window crossing a year boundary), the
rollups come out in month-number order [11, 1] — November 2023 first —
while the most-recent-first order of the distinct (year, month) pairs
is [(2024, 1), (2023, 11)], so the first listed rollup is the older
month. -/
theorem monthly_rollups_order_counterexample :
    (monthlyStatsSQL yearBoundStore 1 19754).map (·.month) = [11, 1] ∧
    specRecentMonthsDesc yearBoundStore 1 19754 = [(2024, 1), (2023, 11)] ∧
    ((specRecentMonthsDesc yearBoundStore 1 19754).map (fun p => p.2)) ≠
      (monthlyStatsSQL yearBoundStore 1 19754).map (·.month) :=
  ⟨rfl, rfl, by decide⟩

/-- C5 counterexample: on the spec's own example (workouts on
2024-01-01 and 2024-01-02, nutrition on 2024-01-02 and 2024-01-03) the
produced axis is not the claimed [01-01, 01-02, 01-03]: the shared day
01-02 appears once per source, giving a four-entry axis. -/
theorem align_axis_counterexample :
    (getProgressRoute (.ok alignStore) 1 19725 "month").workouts.dates =
      ["2024-01-01", "2024-01-02", "2024-01-02", "2024-01-03"] ∧
    (getProgressRoute (.ok alignStore) 1 19725 "month").workouts.dates ≠
      ["2024-01-01", "2024-01-02", "2024-01-03"] := by
  refine ⟨rfl, fun h => ?_⟩
  have h4 : (["2024-01-01", "2024-01-02", "2024-01-02", "2024-01-03"] : List String) =
      ["2024-01-01", "2024-01-02", "2024-01-03"] :=
    Eq.trans (by rfl) h
  exact absurd (congrArg List.length h4) (by decide)

/-- C5 (amended): at every index of the shared axis whose day is
missing from one source's grouped rows, that source's parallel arrays
hold 0 at that index — for workouts the duration and count arrays, for
nutrition the calories, protein, carbs and fats arrays. -/
theorem progress_missing_day_zero (w : List WRow) (n : List NRow) (i d : Nat)
    (hax : (axisDates w n)[i]? = some d) :
    ((∀ r ∈ w, isoDate r.date ≠ isoDate d) →
      (buildResponse w n).workouts.durations[i]? = some 0 ∧
      (buildResponse w n).workouts.counts[i]? = some 0) ∧
    ((∀ r ∈ n, isoDate r.date ≠ isoDate d) →
      (buildResponse w n).nutrition.calories[i]? = some 0 ∧
      (buildResponse w n).nutrition.protein[i]? = some 0 ∧
      (buildResponse w n).nutrition.carbs[i]? = some 0 ∧
      (buildResponse w n).nutrition.fats[i]? = some 0) := by
  constructor
  · intro h2
    have hf : findW w d = none := by
      apply List.find?_eq_none.2
      intro r hr
      simpa using h2 r hr
    constructor <;> simp [buildResponse, List.getElem?_map, hax, hf]
  · intro h2
    have hf : findN n d = none := by
      apply List.find?_eq_none.2
      intro r hr
      simpa using h2 r hr
    refine ⟨?_, ?_, ?_, ?_⟩ <;> simp [buildResponse, List.getElem?_map, hax, hf]

/-- C5 witness: on the spec's example rows the workout count at the
axis entry for 2024-01-03 (index 3) is 0 and the nutrition calories at
the entry for 2024-01-01 (index 0) is 0. -/
theorem progress_missing_day_zero_witness :
    (buildResponse wEx nEx).workouts.counts[3]? = some 0 ∧
    (buildResponse wEx nEx).nutrition.calories[0]? = some 0 :=
  ⟨((progress_missing_day_zero wEx nEx 3 19725 rfl).1 (by decide)).2,
   ((progress_missing_day_zero wEx nEx 0 19723 rfl).2 (by decide)).1⟩

/-- C6: the snapshot's avgCalories is the arithmetic mean of the
per-day calorie sums over exactly the days carrying at least one
nutrition event (0 when there are none), and the single-day example —
2000 kcal logged on one day only — yields 2000, not a mean over a
calendar window. -/
theorem avg_calories_mean_of_active_days (s : Store) (uid now : Nat) :
    (calculateUserStats s uid now).avgCalories = specAvgDailyCalories s uid ∧
    (calculateUserStats calStore 1 now).avgCalories = 2000 := by
  constructor
  · show avgCaloriesSQL s uid = specAvgDailyCalories s uid
    unfold avgCaloriesSQL specAvgDailyCalories foodDays distinctVals
    by_cases h : (userFood s uid).map (·.date) = []
    · simp [h]
    · have hd : ((userFood s uid).map (·.date)).dedup ≠ [] := by
        simpa [List.dedup_eq_nil] using h
      have hfin := toFinset_dedup_eq ((userFood s uid).map (·.date))
      have hsum :
          (((userFood s uid).map (·.date)).toFinset.sum fun d => dayCalories s uid d) =
            ((((userFood s uid).map (·.date)).dedup.map fun d => dayCalories s uid d)).sum := by
        rw [← hfin]
        exact List.sum_toFinset _ (List.nodup_dedup _)
      have hcard := List.card_toFinset ((userFood s uid).map (·.date))
      have hc0 : ¬ ((userFood s uid).map (·.date)).toFinset.card = 0 := by
        simp [Finset.card_eq_zero, List.toFinset_eq_empty_iff, h]
      simp [List.isEmpty_iff, hd, hc0, hsum, hcard]
  · show avgCaloriesSQL calStore 1 = 2000
    have h1 : foodDays calStore 1 = [19723] := rfl
    have h2 : dayCalories calStore 1 19723 = 2000 := rfl
    norm_num [avgCaloriesSQL, h1, h2]

/-- C8 (amended): the monthly rollups group the trailing-6-month
workouts by calendar month number — their month fields are exactly the
distinct month numbers of the in-window workouts — and the list is
ordered by month number (1-12) descending, which coincides with
most-recent-first only when the window stays inside one calendar
year. -/
theorem monthly_rollups_month_number_desc (s : Store) (uid now : Nat) :
    List.Pairwise (fun a b => b.month ≤ a.month) (monthlyStatsSQL s uid now) ∧
    ((monthlyStatsSQL s uid now).map (·.month)).Perm
      (distinctVals (((userWorkouts s uid).filter
        (fun l => decide (sixMonthsAgo now ≤ l.date))).map (fun l => monthOf l.date))) := by
  constructor
  · simp only [monthlyStatsSQL]
    exact sorted_sortDescBy _ _
  · simp only [monthlyStatsSQL]
    refine ((perm_sortDescBy _ _).map _).trans ?_
    have hmap : ∀ (L : List Nat) (f : Nat → MonthlyRow), (∀ m, (f m).month = m) →
        (L.map f).map (fun r => r.month) = L := by
      intro L f hf
      rw [List.map_map]
      have hcomp : ((fun r : MonthlyRow => r.month) ∘ f) = fun m => m := by
        funext m
        exact hf m
      rw [hcomp, List.map_id']
    rw [hmap _ _ (fun m => rfl)]

/-- C9: an unrecognized range keyword takes the switch's default
branch, the 30-day filter also used by `"month"`, so the whole response
— which depends on the range only through that filter — is identical to
the `"month"` response, and no error is raised. -/
theorem progress_unrecognized_range_defaults (db : StoreResult) (uid now : Nat) (range : String)
    (hw : range ≠ "week") (hm : range ≠ "month") (hy : range ≠ "year") :
    getProgressRoute db uid now range = getProgressRoute db uid now "month" := by
  have ht : timeFilter range = timeFilter "month" := by
    simp [timeFilter, hw, hm, hy]
  cases db with
  | error msg => rfl
  | ok s =>
    show progressBody s uid now range = progressBody s uid now "month"
    unfold progressBody
    rw [ht]

/-- C9 witness: the spec's example `"decade"` produces the same
response as `"month"` on a concrete populated store. -/
theorem progress_unrecognized_range_witness :
    getProgressRoute (.ok alignStore) 1 19725 "decade" =
      getProgressRoute (.ok alignStore) 1 19725 "month" :=
  progress_unrecognized_range_defaults (.ok alignStore) 1 19725 "decade"
    (by decide) (by decide) (by decide)

theorem progressBody_cases (s : Store) (uid now : Nat) (range : String) :
    progressBody s uid now range = emptyProgress ∨
    ∃ w n, progressBody s uid now range = buildResponse w n := by
  simp only [progressBody]
  cases h1 : s.tablesExist with
  | false => left; simp
  | true =>
    cases h2 : (workoutRowsQ s uid (now - timeFilter range)).isEmpty &&
        (nutritionRowsQ s uid (now - timeFilter range)).isEmpty with
    | true => left; simp [h2]
    | false =>
      right
      exact ⟨workoutRowsQ s uid (now - timeFilter range),
        nutritionRowsQ s uid (now - timeFilter range), by simp [h2]⟩

/-- C10: every progress response — the built one as well as the empty
fallbacks — is shape-consistent: all eight series arrays share the
length of the date axis and the workout and nutrition date arrays are
elementwise equal. -/
theorem progress_shape_consistent (db : StoreResult) (uid now : Nat) (range : String) :
    shapeConsistent (getProgressRoute db uid now range) := by
  have hempty : shapeConsistent emptyProgress := ⟨rfl, rfl, rfl, rfl, rfl, rfl, rfl, rfl⟩
  have hbuild : ∀ w n, shapeConsistent (buildResponse w n) := by
    intro w n
    refine ⟨?_, ?_, ?_, ?_, ?_, ?_, ?_, rfl⟩ <;> simp [buildResponse]
  cases db with
  | error msg => exact hempty
  | ok s =>
    show shapeConsistent (progressBody s uid now range)
    rcases progressBody_cases s uid now range with h | ⟨w, n, h⟩
    · rw [h]; exact hempty
    · rw [h]; exact hbuild w n
